import Mathlib

/-!
Shallow embedding of `src/check.js` (atomicmail-username-checker).

The checker classifies each username into one of four categories
(available / taken / invalid / error) by calling a remote endpoint
through a rotating proxy pool, retrying on transient failures.

Network I/O is modelled by an oracle `Nat → FetchOutcome` giving, for each
attempt index, either a response (status code + body) or a transport error.
JS strings are modelled by `String`; `String(err).slice(0, 200)` by
`String.take _ 200`; `msg.includes(pat)` by a structural substring test on
the character lists.
-/

namespace AtomicCheck

/-- Constants from the top of `src/check.js`. -/
def CONCURRENCY : Nat := 5

/-- `const MIN_LEN = 3` in `src/check.js`. -/
def MIN_LEN : Nat := 3

/-- A remote HTTP response as seen by `checkUsername`: a status code and a
body (the body as read by `safeReadBody`). -/
structure Response where
  status : Nat
  body : String
deriving Repr, DecidableEq

/-- A transport-level failure thrown by `fetchCheck`.  `message` models
`err.message` (empty when the thrown value has no usable message, i.e. when
`err?.message` is falsy) and `str` models `String(err)`. -/
structure TransportError where
  message : String
  str : String
deriving Repr, DecidableEq

/-- The outcome of one `fetchCheck` call: either a response or a thrown
transport error. -/
inductive FetchOutcome where
  | resp (r : Response)
  | err (e : TransportError)
deriving Repr, DecidableEq

/-- The result record returned by `checkUsername`
(`{ username, status, code?, detail? }`). -/
structure CheckResult where
  username : String
  status : String
  code : Option Nat := none
  detail : Option String := none
deriving Repr, DecidableEq

/-- `leadMatch pat s` is true when `pat` is an initial segment of `s`
(character-list version, structurally recursive so the kernel can
evaluate it). -/
def leadMatch : List Char → List Char → Bool
  | [], _ => true
  | _ :: _, [] => false
  | a :: as, b :: bs => a == b && leadMatch as bs

/-- `occursIn pat s` is true when `pat` occurs as a contiguous substring
of `s`. -/
def occursIn (pat : List Char) : List Char → Bool
  | [] => pat.isEmpty
  | b :: bs => leadMatch pat (b :: bs) || occursIn pat bs

/-- JS `msg.includes(pat)`. -/
def containsStr (s pat : String) : Bool :=
  occursIn pat.data s.data

/-- `String(err?.message || err)` from `isProxyError`: the message when it
is truthy (nonempty), otherwise the stringified error. -/
def errInspect (e : TransportError) : String :=
  if e.message = "" then e.str else e.message

/-- `isProxyError` from `src/check.js` lines 28-40: cause-string inspection
deciding whether a thrown transport error is retryable. -/
def isProxyError (e : TransportError) : Bool :=
  let msg := errInspect e
  containsStr msg "ECONNRESET" ||
  containsStr msg "ETIMEDOUT" ||
  containsStr msg "ENOTFOUND" ||
  containsStr msg "EAI_AGAIN" ||
  containsStr msg "socket" ||
  containsStr msg "407" ||
  containsStr msg "fetch failed" ||
  containsStr msg "aborted"

/-- The proxy rotator state from `createProxyRotator`: the proxy list and
the cursor `i`. -/
structure Rotator where
  proxies : List String
  i : Nat
deriving Repr, DecidableEq

/-- `current()`: `proxies.length ? proxies[i % proxies.length] : null`. -/
def Rotator.current (r : Rotator) : Option String :=
  if r.proxies.length = 0 then none
  else r.proxies.get? (r.i % r.proxies.length)

/-- The state change of `next()`: `i++`.  (In the JS, `next()` also returns
the new current proxy; inside `checkUsername` that return value is always
discarded, so the state change and the returned value are split into
`Rotator.next` and `Rotator.nextVal`.) -/
def Rotator.next (r : Rotator) : Rotator :=
  { r with i := r.i + 1 }

/-- The value returned by `next()`: the current proxy after incrementing. -/
def Rotator.nextVal (r : Rotator) : Option String :=
  r.next.current

/-- `createProxyRotator(proxies)` starts with cursor `0`. -/
def mkRotator (proxies : List String) : Rotator :=
  ⟨proxies, 0⟩

/-- Result of one iteration of the attempt loop body (lines 90-134):
either the loop returns with a final `CheckResult`, or it continues to the
next attempt.  Both carry the rotator state on exit of the iteration. -/
inductive StepResult where
  | done (r : CheckResult) (rot : Rotator)
  | retry (rot : Rotator)
deriving Repr, DecidableEq

/-- The rotator state on exit of a loop iteration. -/
def StepResult.rot : StepResult → Rotator
  | .done _ rot => rot
  | .retry rot => rot

/-- One iteration of the attempt loop in `checkUsername` (lines 93-134),
given the outcome of this attempt's `fetchCheck` call:
  * `res.ok` (2xx) → return `available`;
  * 409 → return `taken`;
  * 429 → `rotator.next()` and continue;
  * 400 → return `invalid` with the body truncated to 200 chars;
  * any other status → `rotator.next()` once, then continue when 5xx,
    otherwise return `error` with code and truncated body;
  * thrown error → when `isProxyError`, `rotator.next()` and continue,
    otherwise return `error` with the stringified error truncated. -/
def attemptStep (username : String) (o : FetchOutcome) (rot : Rotator) : StepResult :=
  match o with
  | .resp res =>
    if 200 ≤ res.status ∧ res.status ≤ 299 then
      .done { username := username, status := "available" } rot
    else if res.status = 409 then
      .done { username := username, status := "taken" } rot
    else if res.status = 429 then
      .retry rot.next
    else if res.status = 400 then
      .done { username := username, status := "invalid", code := some 400,
              detail := some (res.body.take 200) } rot
    else
      -- line 115: `rotator.next()` runs once before the 5xx test, so both
      -- branches below see the advanced rotator
      if 500 ≤ res.status ∧ res.status ≤ 599 then
        .retry rot.next
      else
        .done { username := username, status := "error", code := some res.status,
                detail := some (res.body.take 200) } rot.next
  | .err e =>
    if isProxyError e then
      .retry rot.next
    else
      .done { username := username, status := "error",
              detail := some (e.str.take 200) } rot

/-- The value produced by a full `checkUsername` call together with the
final rotator state and the number of `fetchCheck` invocations made. -/
structure LoopResult where
  result : CheckResult
  rot : Rotator
  calls : Nat
deriving Repr, DecidableEq

/-- The attempt loop of `checkUsername` (lines 90-137): `attempt` is the
oracle index of the next attempt, `fuel` the number of tries remaining out
of `maxTries`; when the fuel runs out the loop falls through to
`retry limit reached` (line 137). -/
def checkLoop (username : String) (oracle : Nat → FetchOutcome)
    (attempt : Nat) (rot : Rotator) (calls : Nat) : Nat → LoopResult
  | 0 => ⟨{ username := username, status := "error",
            detail := some "retry limit reached" }, rot, calls⟩
  | fuel + 1 =>
    match attemptStep username (oracle attempt) rot with
    | .done r rot' => ⟨r, rot', calls + 1⟩
    | .retry rot' => checkLoop username oracle (attempt + 1) rot' (calls + 1) fuel

/-- `checkUsername(username, rotator, maxTries)` (lines 84-138): the local
minimum-length filter (lines 85-88) runs before any network call; otherwise
the attempt loop runs with at most `maxTries` iterations. -/
def checkUsername (username : String) (oracle : Nat → FetchOutcome)
    (rot : Rotator) (maxTries : Nat) : LoopResult :=
  if username.length < MIN_LEN then
    ⟨{ username := username, status := "invalid",
       detail := some ("min_length_" ++ toString MIN_LEN) }, rot, 0⟩
  else
    checkLoop username oracle 0 rot 0 maxTries

/-- `Math.max(3, proxies.length ? proxies.length * 2 : 3)` (line 181). -/
def maxTriesFor (p : Nat) : Nat :=
  max 3 (if p = 0 then 3 else p * 2)

/-- One line written to one of the four result sinks
(`available.txt` / `taken.txt` / `invalid.txt` / `errors.txt`). -/
structure SinkWrite where
  file : String
  line : String
deriving Repr, DecidableEq

/-- `r.code ?? ""` rendered for the error sink line. -/
def optNatStr : Option Nat → String
  | none => ""
  | some n => toString n

/-- `r.detail ?? ""` rendered for a sink line. -/
def optStr : Option String → String
  | none => ""
  | some s => s

/-- The per-result bucketing of `run` (lines 200-225): which sink receives
which line, and the increments to the `available` / `taken` counters. -/
def recordResult (name : String) (r : CheckResult) : SinkWrite × Nat × Nat :=
  if r.status = "available" then
    (⟨"available.txt", name ++ "\n"⟩, 1, 0)
  else if r.status = "taken" then
    (⟨"taken.txt", name ++ "\n"⟩, 0, 1)
  else if r.status = "invalid" then
    (⟨"invalid.txt", name ++ " | " ++ optStr r.detail ++ "\n"⟩, 0, 0)
  else
    (⟨"errors.txt", name ++ " | " ++ optNatStr r.code ++ " | " ++ optStr r.detail ++ "\n"⟩, 0, 0)

/-- The observable output of one `run`: the results produced, whether the
four sink files were reset, the sink lines written, the number of
`checkUsername` invocations, and the final shared counters. -/
structure RunOutput where
  results : List CheckResult
  sinksReset : Bool
  writes : List SinkWrite
  checksInvoked : Nat
  availableCount : Nat
  takenCount : Nat
deriving Repr, DecidableEq

/-- The fan-out of `run` over the username list (lines 195-228).  The JS
runs the checks concurrently (capped by `pLimit`) over one shared rotator;
the embedding fixes the admissible interleaving in which the items run in
input order, threading the shared rotator state from one item to the
next. -/
def runLoop (oracle : String → Nat → FetchOutcome) (maxTries : Nat) :
    List String → Rotator → RunOutput
  | [], _ => ⟨[], true, [], 0, 0, 0⟩
  | name :: rest, rot =>
    let out := checkUsername name (oracle name) rot maxTries
    let w := recordResult name out.result
    let tail := runLoop oracle maxTries rest out.rot
    ⟨out.result :: tail.results, true, w.1 :: tail.writes, tail.checksInvoked + 1,
     w.2.1 + tail.availableCount, w.2.2 + tail.takenCount⟩

/-- `run()` (lines 156-247): when the username list is empty it prints a
message and returns before resetting the sinks, scheduling any check or
writing anything (lines 163-166); otherwise it resets the four sinks,
builds the rotator and the retry budget, and fans out `checkUsername` over
the list. -/
def runModel (usernames : List String) (proxies : List String)
    (oracle : String → Nat → FetchOutcome) : RunOutput :=
  if usernames.length = 0 then
    ⟨[], false, [], 0, 0, 0⟩
  else
    runLoop oracle (maxTriesFor proxies.length) usernames (mkRotator proxies)

/-- Modelled from the spec: the bounded scheduler is the external `p-limit`
dependency (not part of `src/`); per the spec, "at most `C` Item Checker
invocations execute concurrently at any instant; the remaining items are
held in a queue and admitted as running slots free".  A scheduler state
counts the queued, in-flight and finished items. -/
structure SchedState where
  pending : Nat
  active : Nat
  finished : Nat
deriving Repr, DecidableEq

/-- Modelled from the spec: the scheduler transitions.  A queued item may
start only while fewer than `limit` items are in flight; an in-flight item
may finish at any time. -/
inductive SchedStep (limit : Nat) : SchedState → SchedState → Prop where
  | start (s : SchedState) : s.active < limit → 0 < s.pending →
      SchedStep limit s ⟨s.pending - 1, s.active + 1, s.finished⟩
  | finish (s : SchedState) : 0 < s.active →
      SchedStep limit s ⟨s.pending, s.active - 1, s.finished + 1⟩

/-- The states a run over `n` items can reach: initially all `n` items are
queued and none are in flight. -/
def SchedReachable (limit n : Nat) (s : SchedState) : Prop :=
  Relation.ReflTransGen (SchedStep limit) ⟨n, 0, 0⟩ s

/-! ## Helper lemmas -/

theorem checkLoop_succ (u : String) (oracle : Nat → FetchOutcome) (attempt : Nat)
    (rot : Rotator) (calls fuel : Nat) :
    checkLoop u oracle attempt rot calls (fuel + 1) =
      match attemptStep u (oracle attempt) rot with
      | .done r rot' => ⟨r, rot', calls + 1⟩
      | .retry rot' => checkLoop u oracle (attempt + 1) rot' (calls + 1) fuel := rfl

theorem checkLoop_succ_done {u : String} {oracle : Nat → FetchOutcome} {attempt : Nat}
    {rot : Rotator} (calls fuel : Nat) {r : CheckResult} {rot' : Rotator}
    (h : attemptStep u (oracle attempt) rot = .done r rot') :
    checkLoop u oracle attempt rot calls (fuel + 1) = ⟨r, rot', calls + 1⟩ := by
  rw [checkLoop_succ, h]

theorem checkLoop_succ_retry {u : String} {oracle : Nat → FetchOutcome} {attempt : Nat}
    {rot : Rotator} (calls fuel : Nat) {rot' : Rotator}
    (h : attemptStep u (oracle attempt) rot = .retry rot') :
    checkLoop u oracle attempt rot calls (fuel + 1) =
      checkLoop u oracle (attempt + 1) rot' (calls + 1) fuel := by
  rw [checkLoop_succ, h]

theorem attemptStep_ok (u : String) (res : Response) (rot : Rotator)
    (h : 200 ≤ res.status ∧ res.status ≤ 299) :
    attemptStep u (.resp res) rot = .done { username := u, status := "available" } rot := by
  simp only [attemptStep]
  rw [if_pos h]

theorem attemptStep_409 (u : String) (res : Response) (rot : Rotator)
    (h : res.status = 409) :
    attemptStep u (.resp res) rot = .done { username := u, status := "taken" } rot := by
  simp only [attemptStep]
  rw [if_neg (by omega), if_pos h]

theorem attemptStep_429 (u : String) (res : Response) (rot : Rotator)
    (h : res.status = 429) :
    attemptStep u (.resp res) rot = .retry rot.next := by
  simp only [attemptStep]
  rw [if_neg (by omega), if_neg (by omega), if_pos h]

theorem attemptStep_400 (u : String) (res : Response) (rot : Rotator)
    (h : res.status = 400) :
    attemptStep u (.resp res) rot =
      .done { username := u, status := "invalid", code := some 400,
              detail := some (res.body.take 200) } rot := by
  simp only [attemptStep]
  rw [if_neg (by omega), if_neg (by omega), if_neg (by omega), if_pos h]

theorem attemptStep_5xx (u : String) (res : Response) (rot : Rotator)
    (h : 500 ≤ res.status ∧ res.status ≤ 599) :
    attemptStep u (.resp res) rot = .retry rot.next := by
  simp only [attemptStep]
  rw [if_neg (by omega), if_neg (by omega), if_neg (by omega), if_neg (by omega),
    if_pos h]

theorem attemptStep_other (u : String) (res : Response) (rot : Rotator)
    (h1 : ¬(200 ≤ res.status ∧ res.status ≤ 299)) (h2 : res.status ≠ 409)
    (h3 : res.status ≠ 429) (h4 : res.status ≠ 400)
    (h5 : ¬(500 ≤ res.status ∧ res.status ≤ 599)) :
    attemptStep u (.resp res) rot =
      .done { username := u, status := "error", code := some res.status,
              detail := some (res.body.take 200) } rot.next := by
  simp only [attemptStep]
  rw [if_neg h1, if_neg h2, if_neg h3, if_neg h4, if_neg h5]

theorem attemptStep_err_retry (u : String) (e : TransportError) (rot : Rotator)
    (h : isProxyError e = true) :
    attemptStep u (.err e) rot = .retry rot.next := by
  simp only [attemptStep]
  rw [if_pos h]

theorem attemptStep_err_done (u : String) (e : TransportError) (rot : Rotator)
    (h : isProxyError e = false) :
    attemptStep u (.err e) rot =
      .done { username := u, status := "error", detail := some (e.str.take 200) } rot := by
  simp only [attemptStep]
  rw [if_neg (by simp [h])]

theorem attemptStep_done_status (u : String) (o : FetchOutcome) (rot : Rotator)
    {r : CheckResult} {rot' : Rotator} (h : attemptStep u o rot = .done r rot') :
    r.status = "available" ∨ r.status = "taken" ∨ r.status = "invalid" ∨
      r.status = "error" := by
  cases o with
  | resp res =>
    simp only [attemptStep] at h
    split at h <;> try split at h
    all_goals try split at h
    all_goals try split at h
    all_goals try split at h
    all_goals first
      | (injection h with h1 h2
         subst h1
         simp)
      | injection h
  | err e =>
    simp only [attemptStep] at h
    split at h
    · injection h
    · injection h with h1 h2
      subst h1
      simp

theorem checkLoop_status (u : String) (oracle : Nat → FetchOutcome) :
    ∀ (fuel attempt : Nat) (rot : Rotator) (calls : Nat),
      (checkLoop u oracle attempt rot calls fuel).result.status = "available" ∨
      (checkLoop u oracle attempt rot calls fuel).result.status = "taken" ∨
      (checkLoop u oracle attempt rot calls fuel).result.status = "invalid" ∨
      (checkLoop u oracle attempt rot calls fuel).result.status = "error" := by
  intro fuel
  induction fuel with
  | zero =>
    intro attempt rot calls
    simp [checkLoop]
  | succ n ih =>
    intro attempt rot calls
    cases h : attemptStep u (oracle attempt) rot with
    | done r rot' =>
      rw [checkLoop_succ_done calls n h]
      exact attemptStep_done_status u (oracle attempt) rot h
    | retry rot' =>
      rw [checkLoop_succ_retry calls n h]
      exact ih (attempt + 1) rot' (calls + 1)

theorem checkLoop_calls_le (u : String) (oracle : Nat → FetchOutcome) :
    ∀ (fuel attempt : Nat) (rot : Rotator) (calls : Nat),
      (checkLoop u oracle attempt rot calls fuel).calls ≤ calls + fuel := by
  intro fuel
  induction fuel with
  | zero => intro attempt rot calls; exact Nat.le_refl _
  | succ n ih =>
    intro attempt rot calls
    cases h : attemptStep u (oracle attempt) rot with
    | done r rot' =>
      rw [checkLoop_succ_done calls n h]
      show calls + 1 ≤ calls + (n + 1)
      omega
    | retry rot' =>
      rw [checkLoop_succ_retry calls n h]
      have := ih (attempt + 1) rot' (calls + 1)
      omega

theorem checkLoop_allRetry (u : String) (oracle : Nat → FetchOutcome)
    (h : ∀ (i : Nat) (rot0 : Rotator), ∃ rot1, attemptStep u (oracle i) rot0 = .retry rot1) :
    ∀ (fuel attempt : Nat) (rot : Rotator) (calls : Nat),
      (checkLoop u oracle attempt rot calls fuel).result =
        { username := u, status := "error", detail := some "retry limit reached" } ∧
      (checkLoop u oracle attempt rot calls fuel).calls = calls + fuel := by
  intro fuel
  induction fuel with
  | zero => intro attempt rot calls; exact ⟨rfl, rfl⟩
  | succ n ih =>
    intro attempt rot calls
    obtain ⟨rot1, hr⟩ := h attempt rot
    rw [checkLoop_succ_retry calls n hr]
    obtain ⟨h1, h2⟩ := ih (attempt + 1) rot1 (calls + 1)
    exact ⟨h1, by omega⟩

theorem take_length_le (s : String) (n : Nat) : (s.take n).length ≤ n := by
  show (s.take n).data.length ≤ n
  rw [String.data_take]
  exact List.length_take_le n s.data

/-! ## Claim theorems -/

/-- C1: for every identifier, `checkUsername` returns exactly one result
whose category is one of available, taken, invalid or error; the embedding
is a total function over every reachable outcome (every response status and
every transport error of the oracle), so no exception escapes and no
identifier is dropped. -/
theorem checkUsername_total_category (u : String) (oracle : Nat → FetchOutcome)
    (rot : Rotator) (maxTries : Nat) :
    (checkUsername u oracle rot maxTries).result.status = "available" ∨
    (checkUsername u oracle rot maxTries).result.status = "taken" ∨
    (checkUsername u oracle rot maxTries).result.status = "invalid" ∨
    (checkUsername u oracle rot maxTries).result.status = "error" := by
  unfold checkUsername
  split
  · simp
  · exact checkLoop_status u oracle maxTries 0 rot 0

/-- C2: with `P` configured proxies the retry budget is
`max(3, 2P)`: the budget computed on line 181 equals `max 3 (2 * P)`, no
run of the attempt loop makes more than that many calls, and an identifier
none of whose attempts resolves makes exactly that many calls and ends as
`error` with detail "retry limit reached". -/
theorem retry_budget (P : Nat) (u : String) (oracle : Nat → FetchOutcome)
    (rot : Rotator) (hlen : ¬ u.length < MIN_LEN)
    (hretry : ∀ (i : Nat) (rot0 : Rotator), ∃ rot1,
      attemptStep u (oracle i) rot0 = .retry rot1) :
    maxTriesFor P = max 3 (2 * P) ∧
    (∀ (u2 : String) (oracle2 : Nat → FetchOutcome) (rot2 : Rotator),
      (checkUsername u2 oracle2 rot2 (maxTriesFor P)).calls ≤ max 3 (2 * P)) ∧
    (checkUsername u oracle rot (maxTriesFor P)).calls = max 3 (2 * P) ∧
    (checkUsername u oracle rot (maxTriesFor P)).result =
      { username := u, status := "error", detail := some "retry limit reached" } := by
  have hmax : maxTriesFor P = max 3 (2 * P) := by
    unfold maxTriesFor
    rcases Nat.eq_zero_or_pos P with h0 | h0
    · subst h0; rfl
    · rw [if_neg (by omega), Nat.mul_comm]
  refine ⟨hmax, ?_, ?_, ?_⟩
  · intro u2 oracle2 rot2
    unfold checkUsername
    split
    · simp
    · rw [← hmax]
      simpa using checkLoop_calls_le u2 oracle2 (maxTriesFor P) 0 rot2 0
  · unfold checkUsername
    rw [if_neg hlen, ← hmax]
    simpa using (checkLoop_allRetry u oracle hretry (maxTriesFor P) 0 rot 0).2
  · unfold checkUsername
    rw [if_neg hlen]
    exact (checkLoop_allRetry u oracle hretry (maxTriesFor P) 0 rot 0).1

theorem retry_budget_witness :
    maxTriesFor 0 = max 3 (2 * 0) ∧
    (∀ (u2 : String) (oracle2 : Nat → FetchOutcome) (rot2 : Rotator),
      (checkUsername u2 oracle2 rot2 (maxTriesFor 0)).calls ≤ max 3 (2 * 0)) ∧
    (checkUsername "abc" (fun _ => .resp ⟨429, ""⟩) (mkRotator []) (maxTriesFor 0)).calls =
      max 3 (2 * 0) ∧
    (checkUsername "abc" (fun _ => .resp ⟨429, ""⟩) (mkRotator []) (maxTriesFor 0)).result =
      { username := "abc", status := "error", detail := some "retry limit reached" } :=
  retry_budget 0 "abc" (fun _ => .resp ⟨429, ""⟩) (mkRotator []) (by decide)
    (fun _ rot0 => ⟨rot0.next, rfl⟩)

/-- C3: a 2xx response yields `available`, 409 yields `taken`, and 400
yields `invalid` with the response body truncated to at most 200 characters
as detail; in each case the loop returns at once (one call, rotator
untouched). -/
theorem response_mapping (u : String) (oracle : Nat → FetchOutcome)
    (attempt : Nat) (rot : Rotator) (calls fuel : Nat) (res : Response)
    (h : oracle attempt = .resp res) :
    (200 ≤ res.status ∧ res.status ≤ 299 →
      checkLoop u oracle attempt rot calls (fuel + 1) =
        ⟨{ username := u, status := "available" }, rot, calls + 1⟩) ∧
    (res.status = 409 →
      checkLoop u oracle attempt rot calls (fuel + 1) =
        ⟨{ username := u, status := "taken" }, rot, calls + 1⟩) ∧
    (res.status = 400 →
      checkLoop u oracle attempt rot calls (fuel + 1) =
        ⟨{ username := u, status := "invalid", code := some 400,
           detail := some (res.body.take 200) }, rot, calls + 1⟩ ∧
      (res.body.take 200).length ≤ 200) := by
  refine ⟨fun hs => ?_, fun hs => ?_, fun hs => ⟨?_, take_length_le res.body 200⟩⟩
  · exact checkLoop_succ_done calls fuel (h ▸ attemptStep_ok u res rot hs)
  · exact checkLoop_succ_done calls fuel (h ▸ attemptStep_409 u res rot hs)
  · exact checkLoop_succ_done calls fuel (h ▸ attemptStep_400 u res rot hs)

theorem response_mapping_witness :
    checkLoop "abc" (fun _ => .resp ⟨409, ""⟩) 0 (mkRotator []) 0 (2 + 1) =
      ⟨{ username := "abc", status := "taken" }, mkRotator [], 0 + 1⟩ :=
  (response_mapping "abc" (fun _ => .resp ⟨409, ""⟩) 0 (mkRotator []) 0 2 ⟨409, ""⟩ rfl).2.1 rfl

/-- C4: after `next()` is called `k` times on a fresh rotator over a
nonempty proxy list, `current()` returns the proxy at index `k mod P`. -/
theorem rotation_mod (proxies : List String) (k : Nat) (h : 0 < proxies.length) :
    ((Rotator.next)^[k] (mkRotator proxies)).current =
      proxies.get? (k % proxies.length) := by
  have hiter : (Rotator.next)^[k] (mkRotator proxies) = ⟨proxies, k⟩ := by
    induction k with
    | zero => rfl
    | succ n ih => rw [Function.iterate_succ_apply', ih]; rfl
  rw [hiter]
  show (if proxies.length = 0 then none else proxies.get? (k % proxies.length)) =
    proxies.get? (k % proxies.length)
  rw [if_neg (by omega)]

theorem rotation_mod_witness :
    ((Rotator.next)^[4] (mkRotator ["a", "b", "c"])).current = some "b" := by
  rw [rotation_mod ["a", "b", "c"] 4 (by decide)]
  rfl

/-- C5: an identifier shorter than `MIN_LEN` is classified `invalid`
immediately: zero fetch calls are made and the rotator is untouched. -/
theorem short_username_invalid (u : String) (oracle : Nat → FetchOutcome)
    (rot : Rotator) (maxTries : Nat) (h : u.length < MIN_LEN) :
    checkUsername u oracle rot maxTries =
      ⟨{ username := u, status := "invalid",
         detail := some ("min_length_" ++ toString MIN_LEN) }, rot, 0⟩ := by
  unfold checkUsername
  rw [if_pos h]

theorem short_username_invalid_witness :
    checkUsername "ab" (fun _ => .resp ⟨200, ""⟩) (mkRotator []) 3 =
      ⟨{ username := "ab", status := "invalid", detail := some "min_length_3" },
       mkRotator [], 0⟩ := by
  rw [short_username_invalid "ab" (fun _ => .resp ⟨200, ""⟩) (mkRotator []) 3 (by decide)]
  rfl

/-- C6: a response whose status is not 2xx, 409, 429, 400 or 5xx terminates
the loop with category `error` carrying that status code and the body
truncated to at most 200 characters, and the rotator cursor is advanced
exactly once on that attempt. -/
theorem unexpected_status (u : String) (oracle : Nat → FetchOutcome)
    (attempt : Nat) (rot : Rotator) (calls fuel : Nat) (res : Response)
    (h : oracle attempt = .resp res)
    (h1 : ¬(200 ≤ res.status ∧ res.status ≤ 299)) (h2 : res.status ≠ 409)
    (h3 : res.status ≠ 429) (h4 : res.status ≠ 400)
    (h5 : ¬(500 ≤ res.status ∧ res.status ≤ 599)) :
    checkLoop u oracle attempt rot calls (fuel + 1) =
      ⟨{ username := u, status := "error", code := some res.status,
         detail := some (res.body.take 200) }, rot.next, calls + 1⟩ ∧
    (rot.next).i = rot.i + 1 ∧ (res.body.take 200).length ≤ 200 :=
  ⟨checkLoop_succ_done calls fuel (h ▸ attemptStep_other u res rot h1 h2 h3 h4 h5),
   rfl, take_length_le res.body 200⟩

theorem unexpected_status_witness :
    checkLoop "abc" (fun _ => .resp ⟨404, "nope"⟩) 0 (mkRotator ["p"]) 0 (0 + 1) =
      ⟨{ username := "abc", status := "error", code := some 404,
         detail := some (String.take "nope" 200) }, (mkRotator ["p"]).next, 0 + 1⟩ ∧
    ((mkRotator ["p"]).next).i = (mkRotator ["p"]).i + 1 ∧
    (String.take "nope" 200).length ≤ 200 :=
  unexpected_status "abc" (fun _ => .resp ⟨404, "nope"⟩) 0 (mkRotator ["p"]) 0 0
    ⟨404, "nope"⟩ rfl (by decide) (by decide) (by decide) (by decide) (by decide)

/-- C7: a transport failure matched by the cause-string inspection
(`isProxyError`) rotates the proxy and continues the loop; any other
transport failure terminates with category `error` and the stringified
error truncated to at most 200 characters as detail (rotator untouched). -/
theorem transport_failure (u : String) (oracle : Nat → FetchOutcome)
    (attempt : Nat) (rot : Rotator) (calls fuel : Nat) (e : TransportError)
    (h : oracle attempt = .err e) :
    (isProxyError e = true →
      checkLoop u oracle attempt rot calls (fuel + 1) =
        checkLoop u oracle (attempt + 1) rot.next (calls + 1) fuel) ∧
    (isProxyError e = false →
      checkLoop u oracle attempt rot calls (fuel + 1) =
        ⟨{ username := u, status := "error", detail := some (e.str.take 200) },
         rot, calls + 1⟩ ∧
      (e.str.take 200).length ≤ 200) := by
  refine ⟨fun hp => ?_, fun hp => ⟨?_, take_length_le e.str 200⟩⟩
  · exact checkLoop_succ_retry calls fuel (h ▸ attemptStep_err_retry u e rot hp)
  · exact checkLoop_succ_done calls fuel (h ▸ attemptStep_err_done u e rot hp)

theorem transport_failure_witness :
    checkLoop "abc" (fun _ => .err ⟨"connect ETIMEDOUT", "Error: connect ETIMEDOUT"⟩)
        0 (mkRotator []) 0 (1 + 1) =
      checkLoop "abc" (fun _ => .err ⟨"connect ETIMEDOUT", "Error: connect ETIMEDOUT"⟩)
        (0 + 1) (mkRotator []).next (0 + 1) 1 :=
  (transport_failure "abc"
    (fun _ => .err ⟨"connect ETIMEDOUT", "Error: connect ETIMEDOUT"⟩)
    0 (mkRotator []) 0 1 ⟨"connect ETIMEDOUT", "Error: connect ETIMEDOUT"⟩ rfl).1
    (by decide)

/-- C8: in every state the scheduler can reach during a run with limit `C`,
at most `C` items are in flight (the admission guard makes the bound an
inductive invariant of the transition system). -/
theorem sched_bound (C n : Nat) (s : SchedState) (h : SchedReachable C n s) :
    s.active ≤ C := by
  induction h with
  | refl => exact Nat.zero_le C
  | tail _ step ih =>
    cases step with
    | start h1 h2 => simpa using h1
    | finish h1 => simp; omega

theorem sched_bound_witness : (⟨2, 1, 0⟩ : SchedState).active ≤ 5 := by
  apply sched_bound 5 3
  exact Relation.ReflTransGen.single (SchedStep.start ⟨3, 0, 0⟩ (by decide) (by decide))

/-- C9: an empty identifier list short-circuits the run before any work is
scheduled: no check is invoked, no result is produced, the sinks are not
reset and nothing is written to them. -/
theorem empty_run_short_circuit (proxies : List String)
    (oracle : String → Nat → FetchOutcome) :
    runModel [] proxies oracle = ⟨[], false, [], 0, 0, 0⟩ := rfl

/-- C10: a decisive attempt (2xx, 409 or 400 response, or the
below-minimum-length short circuit) leaves the rotator cursor unchanged,
and the cursor moves only on a 429, 5xx or unexpected-status response or a
matched transport failure. -/
theorem decisive_frame (u : String) (o : FetchOutcome) (rot : Rotator) :
    ((∃ res, o = .resp res ∧
        ((200 ≤ res.status ∧ res.status ≤ 299) ∨ res.status = 409 ∨ res.status = 400)) →
      (attemptStep u o rot).rot = rot) ∧
    ((attemptStep u o rot).rot ≠ rot →
      (∃ res, o = .resp res ∧
        (res.status = 429 ∨ (500 ≤ res.status ∧ res.status ≤ 599) ∨
          (¬(200 ≤ res.status ∧ res.status ≤ 299) ∧ res.status ≠ 409 ∧
           res.status ≠ 429 ∧ res.status ≠ 400 ∧
           ¬(500 ≤ res.status ∧ res.status ≤ 599)))) ∨
      (∃ e, o = .err e ∧ isProxyError e = true)) ∧
    (∀ (oracle : Nat → FetchOutcome) (maxTries : Nat), u.length < MIN_LEN →
      (checkUsername u oracle rot maxTries).rot = rot) := by
  refine ⟨?_, ?_, ?_⟩
  · rintro ⟨res, rfl, hc | hc | hc⟩
    · rw [attemptStep_ok u res rot hc]; rfl
    · rw [attemptStep_409 u res rot hc]; rfl
    · rw [attemptStep_400 u res rot hc]; rfl
  · intro hne
    cases o with
    | resp res =>
      refine Or.inl ⟨res, rfl, ?_⟩
      by_cases hok : 200 ≤ res.status ∧ res.status ≤ 299
      · exact absurd (by rw [attemptStep_ok u res rot hok]; rfl) hne
      by_cases h409 : res.status = 409
      · exact absurd (by rw [attemptStep_409 u res rot h409]; rfl) hne
      by_cases h400 : res.status = 400
      · exact absurd (by rw [attemptStep_400 u res rot h400]; rfl) hne
      by_cases h429 : res.status = 429
      · exact Or.inl h429
      by_cases h5xx : 500 ≤ res.status ∧ res.status ≤ 599
      · exact Or.inr (Or.inl h5xx)
      · exact Or.inr (Or.inr ⟨hok, h409, h429, h400, h5xx⟩)
    | err e =>
      by_cases hp : isProxyError e = true
      · exact Or.inr ⟨e, rfl, hp⟩
      · refine absurd ?_ hne
        rw [attemptStep_err_done u e rot (by simpa using hp)]
        rfl
  · intro oracle maxTries hlen
    rw [short_username_invalid u oracle rot maxTries hlen]

theorem decisive_frame_witness :
    (attemptStep "name" (.resp ⟨200, "ok"⟩) (mkRotator ["p"])).rot = mkRotator ["p"] :=
  (decisive_frame "name" (.resp ⟨200, "ok"⟩) (mkRotator ["p"])).1
    ⟨⟨200, "ok"⟩, rfl, Or.inl (by decide)⟩

end AtomicCheck
